import Mathlib

/-
  Verification development for scripts/desktop_probe.py.

  The script is a single linear procedure: parse arguments, acquire a window
  (reuse / attach / launch), poll until the window is ready, optionally replay
  a list of JSON-described UI actions, capture a screenshot and write a JSON
  snapshot of the window's descendant controls.

  The embedding below translates the script's own control flow faithfully.
  Everything delegated to the external automation library (pywinauto) is
  modelled as an oracle supplied in an environment record `Env`: each external
  call site of the script corresponds to one oracle field, and fallible calls
  return `Except PErr _`.  Python values appearing in the actions JSON are
  modelled by the inductive `PyVal`, with Python truthiness, `dict.get`,
  `int(...)` conversion and `for`-iteration modelled explicitly.
-/

namespace DesktopProbe

/-- A left/top/right/bottom rectangle as used by pywinauto. -/
structure Rect where
  left : Int
  top : Int
  right : Int
  bottom : Int
deriving Repr, DecidableEq

/-- The identity attributes of a control's `element_info`
    (name, control_type, class_name, automation_id, rectangle).
    `control_type` is `Option` because the attribute is read with
    `getattr(info, "control_type", None)` in the script. -/
structure ElementInfo where
  name : String
  control_type : Option String
  class_name : String
  automation_id : String
  rectangle : Rect
deriving Repr, DecidableEq

/-- Abstract Python exceptions raised by the modelled external calls. -/
inductive PErr where
  | typeError
  | valueError
  | comError
  | startError
deriving Repr, DecidableEq

/-- A descendant control wrapper.  Reading `element_info` is a live
    accessibility call and may raise (`Except`).  The click oracles give the
    success of `control.click_input()` and of the `set_focus(); click_input()`
    retry. -/
structure Control where
  element_info : Except PErr ElementInfo
  is_enabled : Bool
  is_visible : Bool
  click_ok : Bool
  focus_click_ok : Bool

/-- A resolved window as observed by the script: the results of
    `exists()`, `is_visible()`, `window_text()`, `rectangle()`,
    `descendants()`, `set_focus()`, screenshot capture+save, and the
    two coordinate click attempts of the `click` action. -/
structure Window where
  ex : Bool
  visible : Bool
  title : String
  rect : Rect
  descendants : Except PErr (List Control)
  focus_ok : Bool
  capture_ok : Bool
  click1_ok : Int → Int → Bool
  click2_ok : Int → Int → Bool

/-- Python values occurring in the parsed actions JSON. -/
inductive PyVal where
  | none
  | bool (b : Bool)
  | int (n : Int)
  | str (s : String)
  | list (xs : List PyVal)
  | dict (kvs : List (String × PyVal))

/-- Python truthiness of a value. -/
def truthy : PyVal → Bool
  | .none => false
  | .bool b => b
  | .int n => n != 0
  | .str s => !s.isEmpty
  | .list xs => !xs.isEmpty
  | .dict kvs => !kvs.isEmpty

/-- Python `d.get(k, default)`.  Every call site in the script first checks
    `isinstance(d, dict)`, so the non-dict case returns the default. -/
def PyVal.get (v : PyVal) (k : String) (d : PyVal) : PyVal :=
  match v with
  | .dict kvs =>
    match kvs.find? (fun kv => kv.1 == k) with
    | some kv => kv.2
    | Option.none => d
  | _ => d

/-- Python `v == s` for a string literal `s` on the right. -/
def pyEqStr (v : PyVal) (s : String) : Bool :=
  match v with
  | .str t => t == s
  | _ => false

/-- Python `==` between an `Option String` (a `getattr(..., None)` result)
    and a PyVal. -/
def pyOptStrEq (v : PyVal) (o : Option String) : Bool :=
  match v, o with
  | .str s, some t => s == t
  | .none, Option.none => true
  | _, _ => false

/-- Python `int(v)`: ints pass through, bools coerce, decimal strings parse,
    everything else raises. -/
def pyToInt : PyVal → Except PErr Int
  | .int n => .ok n
  | .bool b => .ok (if b then 1 else 0)
  | .str s =>
    match s.trim.toInt? with
    | some n => .ok n
    | Option.none => .error .valueError
  | _ => .error .typeError

/-- Python `for x in v`: lists yield elements, strings yield one-character
    strings, dicts yield keys, everything else raises TypeError. -/
def pyIter : PyVal → Except PErr (List PyVal)
  | .list xs => .ok xs
  | .str s => .ok (s.toList.map (fun c => PyVal.str c.toString))
  | .dict kvs => .ok (kvs.map (fun kv => PyVal.str kv.1))
  | _ => .error .typeError

/-- Python `v or ""` (used for the three `find_control` target filters). -/
def orEmpty (v : PyVal) : PyVal :=
  if truthy v then v else .str ""

/-- `True` exactly on dicts (`isinstance(action, dict)`). -/
def isDict : PyVal → Bool
  | .dict _ => true
  | _ => false

/-- Python `xs[:m]` for an arbitrary (possibly negative) int `m`. -/
def pySlice {α : Type} (xs : List α) (m : Int) : List α :=
  if 0 ≤ m then xs.take m.toNat
  else xs.take ((xs.length : Int) + m).toNat

/-- The command-line flags of the script (argparse defaults reproduced). -/
structure Args where
  app : String
  app_args : String
  backend : String
  window_title : String
  out_dir : String
  max_controls : Int
  timeout_ms : Int
  settle_ms : Int
  close : Bool
  actions_json : String
  reuse : Bool
  attach_only : Bool

/-- What the actions JSON file looks like to the script: absent, failing to
    open/parse, or parsed to a Python value. -/
inductive FileContent where
  | missing
  | unparseable
  | parsed (v : PyVal)

/-- The external automation environment: one oracle per external call site.
    `reuseResolve` takes whether `app.connect(path=...)` succeeded (on a
    fresh, unconnected `Application` the window lookup raises, which the
    oracle may model by returning an error).  `polls` lists the successive
    results of the window resolution inside the poll loop, one per iteration
    executed before the deadline. -/
structure Env where
  pywinauto_ok : Bool
  connect_path_ok : Bool
  reuseResolve : Bool → Except PErr Window
  desktopResolve : Except PErr Window
  connect_handle_ok : Bool
  start_result : String → Except PErr Unit
  polls : List (Except PErr Window)
  file : FileContent
  send_ok : PyVal → Bool

/-- Observable events of a run, in program order. -/
inductive Event where
  | connectByPath (path : String)
  | desktopAttach
  | startApp (cmd : String)
  | enumerateDescendants
  | actionStep (i : Nat)
  | screenshot
  | writeJson
  | kill
  | stderr (msg : String)
deriving Repr, DecidableEq

/-- Externally visible effects of one replayed action. -/
inductive Effect where
  | windowClick (x y : Int)
  | controlClick
  | keys (v : PyVal) (withSpaces : Bool)
  | sleep (ms : Int)

/-- One record of the serialized `controls` list. -/
structure ControlRecord where
  name : String
  control_type : Option String
  class_name : String
  automation_id : String
  enabled : Bool
  visible : Bool
  rect : Rect
deriving Repr, DecidableEq

/-- The shape of the output JSON document. -/
structure Payload where
  app : String
  attach_only : Bool
  backend : String
  window_title : String
  window_rect : Rect
  control_count : Nat
  controls : List ControlRecord
  screenshot : String
deriving Repr, DecidableEq

/-- How a run terminates: `sys.exit(code)` (with the JSON payload written,
    if any), or an unhandled Python exception. -/
inductive Outcome where
  | exited (code : Nat) (json : Option Payload)
  | uncaught (e : PErr)
deriving Repr, DecidableEq

def exceptOk {α : Type} : Except PErr α → Bool
  | .ok _ => true
  | .error _ => false

/-- Lines 31-35: build the command line from `--app` and `--app-args`. -/
def buildCmd (args : Args) : String :=
  if args.app != "" then
    (if args.app_args != "" then
      "\"" ++ args.app ++ "\"" ++ " " ++ args.app_args
     else "\"" ++ args.app ++ "\"")
  else ""

/-- Lines 46-56: resolve the reuse window on the current `Application`;
    any exception, or an existing-but-not-visible window, yields `None`. -/
def reuseResolvedWindow (env : Env) (connected : Bool) : Option Window :=
  match env.reuseResolve connected with
  | .error _ => Option.none
  | .ok w => if w.ex && w.visible then some w else Option.none

/-- Lines 40-56: the reuse branch.  `app.connect(path=...)` is attempted only
    when both `--reuse` and a nonempty `--app` are given; the window lookup
    runs whenever `--reuse` is given. -/
def reusePhase (args : Args) (env : Env) : List Event × Option Window :=
  if args.reuse then
    if args.app != "" then
      ([Event.connectByPath args.app], reuseResolvedWindow env env.connect_path_ok)
    else
      ([], reuseResolvedWindow env false)
  else ([], Option.none)

/-- Lines 58-71: the attach-only branch: resolve a desktop window and, if it
    exists and is visible, connect to its process by handle.  A failing
    `connect(handle=...)` is caught by the surrounding try and resets the
    window to `None`. -/
def attachPhase (env : Env) : List Event × Option Window :=
  ([Event.desktopAttach],
   match env.desktopResolve with
   | .error _ => Option.none
   | .ok w =>
     if w.ex && w.visible then
       (if env.connect_handle_ok then some w else Option.none)
     else Option.none)

/-- The window held after lines 40-71, before any launch. -/
def preWindow (args : Args) (env : Env) : Option Window :=
  match (reusePhase args env).2 with
  | some w => some w
  | Option.none => if args.attach_only then (attachPhase env).2 else Option.none

/-- Lines 37-75: full acquisition.  `app.start(cmd)` runs only when no window
    was found and `--attach-only` is not set; it is not wrapped in a
    try/except, so its failure propagates as an uncaught exception. -/
def acquirePhase (args : Args) (env : Env) : List Event × Except PErr (Option Window) :=
  match (reusePhase args env).2 with
  | some w => ((reusePhase args env).1, .ok (some w))
  | Option.none =>
    if args.attach_only then
      ((reusePhase args env).1 ++ (attachPhase env).1, .ok (attachPhase env).2)
    else
      match env.start_result (buildCmd args) with
      | .error e => ((reusePhase args env).1 ++ [Event.startApp (buildCmd args)], .error e)
      | .ok _ => ((reusePhase args env).1 ++ [Event.startApp (buildCmd args)], .ok Option.none)

/-- Lines 77-88: the poll loop.  Each entry of `polls` is one iteration's
    window resolution; an exception sets the window to `None`, a resolved
    window breaks the loop when it exists and is visible, otherwise it is
    kept and polling continues until the deadline (list exhaustion). -/
def pollLoop (w0 : Option Window) : List (Except PErr Window) → Option Window
  | [] => w0
  | p :: rest =>
    match p with
    | .error _ => pollLoop Option.none rest
    | .ok w => if w.ex && w.visible then some w else pollLoop (some w) rest

/-- Lines 102-109: load the actions value.  An empty `--actions-json`, a
    missing file, or a failing open/parse yields the empty list; a parsed
    non-dict yields the empty list; a parsed dict yields its `actions` value
    unchecked. -/
def loadActions (actions_json : String) (fc : FileContent) : PyVal :=
  if actions_json == "" then .list []
  else
    match fc with
    | .missing => .list []
    | .unparseable => .list []
    | .parsed v => if isDict v then PyVal.get v "actions" (.list []) else .list []

/-- Lines 112-116: `window.descendants()` with exceptions mapped to `[]`. -/
def descOf (w : Window) : List Control :=
  match w.descendants with
  | .ok l => l
  | .error _ => []

/-- Whether a control passes the three optional AND-combined filters of
    `find_control` (automation id, name, control type). -/
def controlMatches (tid tname ttype : PyVal) (info : ElementInfo) : Bool :=
  !(truthy tid && !(pyEqStr tid info.automation_id)) &&
  !(truthy tname && !(pyEqStr tname info.name)) &&
  !(truthy ttype && !(pyOptStrEq ttype info.control_type))

/-- The filtering loop of `find_control` (lines 123-132): reading
    `control.element_info` is a live call and its failure propagates —
    the loop is not inside any try/except. -/
def matchLoop (tid tname ttype : PyVal) : List Control → List Control → Except PErr (List Control)
  | [], acc => .ok acc
  | c :: rest, acc =>
    match c.element_info with
    | .error e => .error e
    | .ok info =>
      if controlMatches tid tname ttype info then
        matchLoop tid tname ttype rest (acc ++ [c])
      else matchLoop tid tname ttype rest acc

/-- Line 119: `action.get("automation_id") or ""`. -/
def targetId (action : PyVal) : PyVal := orEmpty (PyVal.get action "automation_id" PyVal.none)

/-- Line 120: `action.get("name") or ""`. -/
def targetName (action : PyVal) : PyVal := orEmpty (PyVal.get action "name" PyVal.none)

/-- Line 121: `action.get("control_type") or ""`. -/
def targetType (action : PyVal) : PyVal := orEmpty (PyVal.get action "control_type" PyVal.none)

/-- Lines 135-140: convert the `index` field with `int(...)` (0 on failure)
    and clamp out-of-range values to 0, for a match list of length `n`. -/
def chosenIndex (action : PyVal) (n : Nat) : Nat :=
  (match pyToInt (PyVal.get action "index" (PyVal.int 0)) with
   | .ok k => if k < 0 || (n : Int) ≤ k then 0 else k
   | .error _ => (0 : Int)).toNat

/-- Lines 118-141: `find_control`.  Returns the match selected by the
    (clamped) `index` field, or `None` when nothing matches. -/
def find_control (ds : List Control) (action : PyVal) : Except PErr (Option Control) :=
  match matchLoop (targetId action) (targetName action) (targetType action) ds [] with
  | .error e => .error e
  | .ok [] => .ok Option.none
  | .ok ms => .ok (ms.get? (chosenIndex action ms.length))

/-- Lines 147-162: the `click` action.  Both `int(...)` conversions are
    inside one try (a failure zeroes both coordinates); the relative click is
    retried at `rect`-absolute coordinates; all failures are swallowed. -/
def clickAction (w : Window) (action : PyVal) : List Effect :=
  let xy : Int × Int :=
    match pyToInt (PyVal.get action "x" (PyVal.int 0)),
          pyToInt (PyVal.get action "y" (PyVal.int 0)) with
    | .ok a, .ok b => (a, b)
    | _, _ => (0, 0)
  if w.click1_ok xy.1 xy.2 then [Effect.windowClick xy.1 xy.2]
  else
    (if w.click2_ok (w.rect.left + xy.1) (w.rect.top + xy.2) then
      [Effect.windowClick (w.rect.left + xy.1) (w.rect.top + xy.2)]
     else [])

/-- Lines 163-173: the `click_control` action.  Only the clicking itself is
    wrapped in try/except; `find_control` runs outside any handler. -/
def clickControlAction (ds : List Control) (action : PyVal) : Except PErr (List Effect) :=
  match find_control ds action with
  | .error e => .error e
  | .ok Option.none => .ok []
  | .ok (some c) =>
    if c.click_ok then .ok [Effect.controlClick]
    else (if c.focus_click_ok then .ok [Effect.controlClick] else .ok [])

/-- Lines 174-181: the `type_text` action (send_keys with spaces). -/
def typeTextAction (kb : PyVal → Bool) (action : PyVal) : List Effect :=
  let text := PyVal.get action "text" (.str "")
  if truthy text then
    (if kb text then [Effect.keys text true] else [])
  else []

/-- Lines 182-189: the `keypress` action. -/
def keypressAction (kb : PyVal → Bool) (action : PyVal) : List Effect :=
  let keys := PyVal.get action "keys" (.str "")
  if truthy keys then
    (if kb keys then [Effect.keys keys false] else [])
  else []

/-- Lines 191-193: the optional per-action delay, executed only for numeric
    positive `delay_ms` (Python bools are ints). -/
def delayEffects (action : PyVal) : List Effect :=
  match PyVal.get action "delay_ms" (PyVal.int 0) with
  | .int n => if 0 < n then [Effect.sleep n] else []
  | .bool b => if b then [Effect.sleep 1] else []
  | _ => []

/-- Line 146: `action_type = action.get("type")`. -/
def actionType (action : PyVal) : PyVal := PyVal.get action "type" PyVal.none

/-- One iteration of the replay loop (lines 143-193): non-dict actions are
    skipped entirely (including the delay); only the `click_control` branch
    can raise, via `find_control`. -/
def replayStep (w : Window) (kb : PyVal → Bool) (ds : List Control) (action : PyVal) :
    Except PErr (List Effect) :=
  if isDict action then
    if pyEqStr (actionType action) "click" then .ok (clickAction w action ++ delayEffects action)
    else if pyEqStr (actionType action) "click_control" then
      match clickControlAction ds action with
      | .error e => .error e
      | .ok effs => .ok (effs ++ delayEffects action)
    else if pyEqStr (actionType action) "type_text" then
      .ok (typeTextAction kb action ++ delayEffects action)
    else if pyEqStr (actionType action) "keypress" then
      .ok (keypressAction kb action ++ delayEffects action)
    else .ok (delayEffects action)
  else .ok []

/-- The replay loop over the action list, with one `actionStep` event per
    executed iteration; a step's uncaught exception aborts the loop. -/
def replayTrace (w : Window) (kb : PyVal → Bool) (ds : List Control) :
    List PyVal → Nat → List Event × Except PErr (List Effect)
  | [], _ => ([], .ok [])
  | a :: rest, i =>
    match replayStep w kb ds a with
    | .error e => ([Event.actionStep i], .error e)
    | .ok effs =>
      match replayTrace w kb ds rest (i + 1) with
      | (tr, .error e) => (Event.actionStep i :: tr, .error e)
      | (tr, .ok es) => (Event.actionStep i :: tr, .ok (effs ++ es))

/-- One record of the serialization loop body (lines 206-221). -/
def mkRecord (info : ElementInfo) (c : Control) : ControlRecord :=
  { name := info.name
    control_type := info.control_type
    class_name := info.class_name
    automation_id := info.automation_id
    enabled := c.is_enabled
    visible := c.is_visible
    rect := info.rectangle }

/-- Lines 205-221: the serialization loop.  `info = control.element_info` is
    unprotected, so its failure propagates; the loop rebinds the variable
    `rect` (line 207), which the returned pair's second component tracks. -/
def serializeLoop : List Control → List ControlRecord → Rect → Except PErr (List ControlRecord × Rect)
  | [], acc, r => .ok (acc, r)
  | c :: rest, acc, _r =>
    match c.element_info with
    | .error e => .error e
    | .ok info => serializeLoop rest (acc ++ [mkRecord info c]) info.rectangle

/-- Serialize `descendants[:max_controls]`, threading the shadowed `rect`
    variable whose final value ends up in the payload's `window_rect`. -/
def serializeControls (ds : List Control) (m : Int) (r0 : Rect) :
    Except PErr (List ControlRecord × Rect) :=
  serializeLoop (pySlice ds m) [] r0

/-- Lines 223-237: assemble the output JSON.  `window_rect` is built from the
    current value of the variable `rect`, i.e. the second component returned
    by the serialization loop. -/
def mkPayload (args : Args) (w : Window) (rectF : Rect) (count : Nat)
    (records : List ControlRecord) : Payload :=
  { app := args.app
    attach_only := args.attach_only
    backend := args.backend
    window_title := w.title
    window_rect := rectF
    control_count := count
    controls := records
    screenshot := args.out_dir ++ "/desktop_1.png" }

/-- Lines 195-249: screenshot, serialization, JSON write and teardown.
    A failed capture prints to stderr and exits 4 before anything is
    serialized or written. -/
def capturePhase (args : Args) (w : Window) (ds : List Control) : List Event × Outcome :=
  if w.capture_ok then
    match serializeControls ds args.max_controls w.rect with
    | .error e => ([Event.screenshot], .uncaught e)
    | .ok pr =>
      (Event.screenshot :: Event.writeJson :: (if args.close then [Event.kill] else []),
       .exited 0 (some (mkPayload args w pr.2 ds.length pr.1)))
  else ([Event.stderr "screenshot failed"], .exited 4 Option.none)

/-- Lines 94-249 given a found window: focus (best effort), settle, load the
    actions value, read `rectangle()` and `descendants()`, replay, capture.
    Iterating a non-iterable `actions` value raises at the loop header
    (line 143), after enumeration. -/
def windowPhase (args : Args) (env : Env) (w : Window) : List Event × Outcome :=
  match pyIter (loadActions args.actions_json env.file) with
  | .error e => ([Event.enumerateDescendants], .uncaught e)
  | .ok acts =>
    match (replayTrace w env.send_ok (descOf w) acts 0).2 with
    | .error e =>
      (Event.enumerateDescendants :: (replayTrace w env.send_ok (descOf w) acts 0).1, .uncaught e)
    | .ok _ =>
      (Event.enumerateDescendants :: (replayTrace w env.send_ok (descOf w) acts 0).1
         ++ (capturePhase args w (descOf w)).1,
       (capturePhase args w (descOf w)).2)

/-- The whole script (function `main`): import check (exit 2), acquisition,
    poll loop, the `window is None or not window.exists()` check (exit 3),
    then the window phase. -/
def runProbe (args : Args) (env : Env) : List Event × Outcome :=
  if env.pywinauto_ok then
    match (acquirePhase args env).2 with
    | .error e => ((acquirePhase args env).1, .uncaught e)
    | .ok w0 =>
      match pollLoop w0 env.polls with
      | some w =>
        if w.ex then
          ((acquirePhase args env).1 ++ (windowPhase args env w).1, (windowPhase args env w).2)
        else
          ((acquirePhase args env).1 ++ [Event.stderr "window not found"],
           .exited 3 Option.none)
      | Option.none =>
        ((acquirePhase args env).1 ++ [Event.stderr "window not found"],
         .exited 3 Option.none)
  else ([Event.stderr "pywinauto not available"], .exited 2 Option.none)

def runTrace (args : Args) (env : Env) : List Event := (runProbe args env).1

def runOutcome (args : Args) (env : Env) : Outcome := (runProbe args env).2

/-- The descendant list enumerated by a run (empty when the run never reaches
    or never resolves a window, matching the script's `descendants = []`). -/
def enumerated (args : Args) (env : Env) : List Control :=
  match pollLoop (preWindow args env) env.polls with
  | some w => descOf w
  | Option.none => []

/-- Payload extraction from an outcome. -/
def outcomePayload : Outcome → Option Payload
  | .exited _ j => j
  | .uncaught _ => Option.none

def outcomeWindowRect (o : Outcome) : Option Rect :=
  (outcomePayload o).map (fun p => p.window_rect)

/- Concrete fixtures used by counterexamples and witnesses. -/

/-- A default argument vector: launch "demo.exe", defaults everywhere else. -/
def baseArgs : Args :=
  { app := "demo.exe", app_args := "", backend := "uia", window_title := "",
    out_dir := "out", max_controls := 120, timeout_ms := 20000, settle_ms := 600,
    close := false, actions_json := "", reuse := false, attach_only := false }

/-- A sample element_info of a button control. -/
def demoInfo : ElementInfo :=
  { name := "btn", control_type := some "Button", class_name := "B",
    automation_id := "b1", rectangle := ⟨5, 5, 10, 10⟩ }

/-- A healthy descendant control exposing `demoInfo`. -/
def demoControl : Control :=
  { element_info := .ok demoInfo, is_enabled := true, is_visible := true,
    click_ok := true, focus_click_ok := true }

/-- A healthy visible window with no descendants. -/
def baseWindow : Window :=
  { ex := true, visible := true, title := "Demo", rect := ⟨0, 0, 100, 100⟩,
    descendants := .ok [], focus_ok := true, capture_ok := true,
    click1_ok := fun _ _ => true, click2_ok := fun _ _ => true }

/-- A benign environment: pywinauto present, launch succeeds, the first poll
    resolves `baseWindow`, no actions file. -/
def baseEnv : Env :=
  { pywinauto_ok := true, connect_path_ok := true,
    reuseResolve := fun _ => .error .comError,
    desktopResolve := .error .comError, connect_handle_ok := true,
    start_result := fun _ => .ok (), polls := [.ok baseWindow],
    file := .missing, send_ok := fun _ => true }

/-- The payload a benign run of `baseArgs`/`baseEnv` writes. -/
def basePayload : Payload :=
  { app := "demo.exe", attach_only := false, backend := "uia",
    window_title := "Demo", window_rect := ⟨0, 0, 100, 100⟩,
    control_count := 0, controls := [], screenshot := "out/desktop_1.png" }

/- Event classifiers and trace-order helpers. -/

def isConnect : Event → Bool
  | .connectByPath _ => true
  | _ => false

def isAttach : Event → Bool
  | .desktopAttach => true
  | _ => false

def isStart : Event → Bool
  | .startApp _ => true
  | _ => false

def isStartCmd (c : String) : Event → Bool
  | .startApp d => d == c
  | _ => false

def isEnum : Event → Bool
  | .enumerateDescendants => true
  | _ => false

def isStep : Event → Bool
  | .actionStep _ => true
  | _ => false

def isWrite : Event → Bool
  | .writeJson => true
  | _ => false

def isStderrMsg (m : String) : Event → Bool
  | .stderr s => s == m
  | _ => false

def isSleep : Effect → Bool
  | .sleep _ => true
  | _ => false

/-- An acquisition-stage event (connect attempt, desktop attach, launch). -/
def isAcqEvent : Event → Bool
  | .connectByPath _ => true
  | .desktopAttach => true
  | .startApp _ => true
  | _ => false

/-- Not an acquisition event. -/
def noAcq (e : Event) : Bool := !(isConnect e) && !(isAttach e) && !(isStart e)

/-- No event satisfying `p` occurs strictly before the first event
    satisfying `q` (vacuously, no `p`-event at all when `q` never occurs). -/
def noEventBefore (tr : List Event) (q p : Event → Bool) : Bool :=
  (tr.takeWhile (fun e => !(q e))).all (fun e => !(p e))

/-- No event satisfying `p` occurs at or after the first event
    satisfying `q`. -/
def noEventAfter (tr : List Event) (q p : Event → Bool) : Bool :=
  (tr.dropWhile (fun e => !(q e))).all (fun e => !(p e))

/-- Whether an optional window fails the `window is None or not
    window.exists()` check of line 90. -/
def windowMissing : Option Window → Bool
  | Option.none => true
  | some w => !w.ex

/-- A poll iteration that raises or yields a window failing `exists()`. -/
def pollNonexistent : Except PErr Window → Bool
  | .error _ => true
  | .ok w => !w.ex

/-- Whether the replay phase for window `w` completes without an uncaught
    exception (the actions value is iterable and every step returns). -/
def replayPhaseOk (args : Args) (env : Env) (w : Window) : Bool :=
  match pyIter (loadActions args.actions_json env.file) with
  | .error _ => false
  | .ok acts => exceptOk (replayTrace w env.send_ok (descOf w) acts 0).2

/-- Whether the payload of an outcome (if any) satisfies the
    `len(controls) = min(control_count, max_controls)` relation claimed by
    the specification; vacuously true when no payload was produced. -/
def lenEqMinObserved (args : Args) (o : Outcome) : Bool :=
  match outcomePayload o with
  | some p => (p.controls.length : Int) == min (p.control_count : Int) args.max_controls
  | Option.none => true

/- Additional concrete fixtures used by counterexamples and witnesses. -/

/-- Arguments that name an actions JSON file. -/
def actionsJsonArgs : Args := { baseArgs with actions_json := "acts.json" }

/-- A visible window exposing exactly one descendant control. -/
def oneControlWindow : Window := { baseWindow with descendants := .ok [demoControl] }

/-- Environment whose poll resolves `oneControlWindow`. -/
def oneControlEnv : Env := { baseEnv with polls := [.ok oneControlWindow] }

/-- Arguments with a negative `--max-controls`. -/
def negMaxArgs : Args := { baseArgs with max_controls := -1 }

/-- A control whose `element_info` read raises. -/
def badControl : Control :=
  { element_info := .error .comError, is_enabled := true, is_visible := true,
    click_ok := true, focus_click_ok := true }

/-- A visible window whose only descendant has a raising `element_info`. -/
def badControlWindow : Window := { baseWindow with descendants := .ok [badControl] }

/-- A `click_control` action targeting automation id "x". -/
def clickControlVal : PyVal :=
  .dict [("type", .str "click_control"), ("automation_id", .str "x")]

/-- A plain `click` action with default coordinates. -/
def clickVal : PyVal := .dict [("type", .str "click")]

/-- An actions file holding a single action. -/
def actionsFileOf (a : PyVal) : FileContent := .parsed (.dict [("actions", .list [a])])

/-- Environment: poll resolves `badControlWindow`, actions file holds one
    `click_control` action. -/
def badControlEnv : Env :=
  { baseEnv with polls := [.ok badControlWindow], file := actionsFileOf clickControlVal }

/-- Environment: benign window, actions file holds one `click` action. -/
def oneClickEnv : Env := { baseEnv with file := actionsFileOf clickVal }

/-- Environment whose actions file parses to a dict with a non-iterable
    `actions` value. -/
def nonIterActionsEnv : Env :=
  { baseEnv with file := .parsed (.dict [("actions", .int 0)]) }

/-- A window that exists but is never visible. -/
def invisibleWindow : Window := { baseWindow with visible := false }

/-- Environment whose only poll resolves `invisibleWindow`. -/
def invisibleEnv : Env := { baseEnv with polls := [.ok invisibleWindow] }

/-- A window that does not exist (and is not visible). -/
def ghostWindow : Window := { baseWindow with ex := false, visible := false }

/-- Environment whose only poll resolves `ghostWindow`. -/
def ghostEnv : Env := { baseEnv with polls := [.ok ghostWindow] }

/-- A window whose screenshot capture fails. -/
def brokenCamWindow : Window := { baseWindow with capture_ok := false }

/-- Environment whose poll resolves `brokenCamWindow`. -/
def brokenCamEnv : Env := { baseEnv with polls := [.ok brokenCamWindow] }

/-- Arguments with an empty `--app` (its argparse default). -/
def emptyAppArgs : Args := { baseArgs with app := "" }

/-- Environment whose launch call fails (as `app.start("")` does). -/
def failingStartEnv : Env := { baseEnv with start_result := fun _ => .error .startError }

/-- A `click_control` action whose automation id matches no fixture control. -/
def noMatchClickControlVal : PyVal :=
  .dict [("type", .str "click_control"), ("automation_id", .str "nomatch")]

theorem all_takeWhile {α : Type} (f g : α → Bool) :
    ∀ l : List α, l.all f = true → (l.takeWhile g).all f = true := by
  intro l h
  induction l with
  | nil => simp [List.takeWhile]
  | cons a t ih =>
    simp only [List.all_cons, Bool.and_eq_true] at h
    by_cases hg : g a = true
    · simp only [List.takeWhile, hg, List.all_cons, Bool.and_eq_true]
      exact ⟨h.1, ih h.2⟩
    · simp only [List.takeWhile]
      rw [Bool.not_eq_true] at hg
      simp [hg]

theorem all_dropWhile {α : Type} (f g : α → Bool) :
    ∀ l : List α, l.all f = true → (l.dropWhile g).all f = true := by
  intro l h
  induction l with
  | nil => simp [List.dropWhile]
  | cons a t ih =>
    simp only [List.all_cons, Bool.and_eq_true] at h
    by_cases hg : g a = true
    · simp only [List.dropWhile, hg]
      exact ih h.2
    · simp only [List.dropWhile]
      rw [Bool.not_eq_true] at hg
      simp only [hg]
      simp [List.all_cons, h.1, h.2]

theorem all_of_all_imp {α : Type} (f g : α → Bool) (l : List α)
    (h : l.all f = true) (himp : ∀ a, f a = true → g a = true) : l.all g = true := by
  induction l with
  | nil => rfl
  | cons a t ih =>
    simp only [List.all_cons, Bool.and_eq_true] at h ⊢
    exact ⟨himp a h.1, ih h.2⟩

theorem noEventBefore_of_all (tr : List Event) (q p : Event → Bool)
    (h : tr.all (fun e => !(p e)) = true) : noEventBefore tr q p = true :=
  all_takeWhile _ _ tr h

theorem noEventAfter_of_all (tr : List Event) (q p : Event → Bool)
    (h : tr.all (fun e => !(p e)) = true) : noEventAfter tr q p = true :=
  all_dropWhile _ _ tr h

theorem noEventBefore_append (q p : Event → Bool) (tr1 tr2 : List Event)
    (h1 : tr1.all (fun e => !(p e)) = true) (h2 : noEventBefore tr2 q p = true) :
    noEventBefore (tr1 ++ tr2) q p = true := by
  induction tr1 with
  | nil => simpa
  | cons a t ih =>
    simp only [List.all_cons, Bool.and_eq_true] at h1
    by_cases hq : q a = true
    · simp [noEventBefore, List.takeWhile, hq]
    · rw [Bool.not_eq_true] at hq
      have := ih h1.2
      simp only [noEventBefore, List.cons_append, List.takeWhile, hq] at this ⊢
      simp only [Bool.not_false, List.all_cons, Bool.and_eq_true]
      exact ⟨h1.1, this⟩

theorem noEventAfter_append (q p : Event → Bool) (tr1 tr2 : List Event)
    (h1 : noEventAfter tr1 q p = true) (h2 : tr2.all (fun e => !(p e)) = true) :
    noEventAfter (tr1 ++ tr2) q p = true := by
  induction tr1 with
  | nil => simpa [noEventAfter] using all_dropWhile _ _ tr2 h2
  | cons a t ih =>
    by_cases hq : q a = true
    · have hfix : ∀ l : List Event, List.dropWhile (fun e => !(q e)) (a :: l) = a :: l := by
        intro l; simp [List.dropWhile_cons, hq]
      unfold noEventAfter at h1 ⊢
      rw [List.cons_append, hfix (t ++ tr2)]
      rw [hfix t] at h1
      rw [List.all_cons] at h1 ⊢
      rw [List.all_append]
      simp only [Bool.and_eq_true] at h1 ⊢
      exact ⟨h1.1, h1.2, h2⟩
    · have hfix : ∀ l : List Event,
          List.dropWhile (fun e => !(q e)) (a :: l) = List.dropWhile (fun e => !(q e)) l := by
        intro l; simp [List.dropWhile_cons, hq]
      have hh1 : noEventAfter t q p = true := by
        unfold noEventAfter at h1 ⊢
        rwa [hfix t] at h1
      have := ih hh1
      unfold noEventAfter at this ⊢
      rw [List.cons_append, hfix (t ++ tr2)]
      exact this

theorem pollLoop_missing : ∀ (polls : List (Except PErr Window)),
    (∀ p ∈ polls, pollNonexistent p = true) →
    ∀ w0 : Option Window, windowMissing w0 = true →
    windowMissing (pollLoop w0 polls) = true := by
  intro polls
  induction polls with
  | nil => intro _ w0 h0; simpa [pollLoop]
  | cons p rest ih =>
    intro hp w0 h0
    have hph := hp p (by simp)
    have hrest : ∀ q ∈ rest, pollNonexistent q = true := fun q hq => hp q (by simp [hq])
    cases p with
    | error e => exact ih hrest Option.none rfl
    | ok w =>
      simp only [pollNonexistent, Bool.not_eq_true'] at hph
      simp only [pollLoop, hph, Bool.false_and, Bool.false_eq_true, if_false]
      exact ih hrest (some w) (by simp [windowMissing, hph])

/- Structural lemmas about the acquisition phase. -/

theorem reusePhase_trace (args : Args) (env : Env) :
    (reusePhase args env).1 =
      (if args.reuse && args.app != "" then [Event.connectByPath args.app] else []) := by
  cases h1 : args.reuse <;> by_cases h2 : args.app != "" <;>
    simp [reusePhase, h1, h2]

/-- The acquisition trace is exactly: a connect-by-path attempt when reuse is
    requested with a nonempty app, then a desktop attach when the reuse step
    yielded nothing and attach-only is set, then a launch when no window was
    found and attach-only is not set — in that order. -/
theorem acquire_trace_eq (args : Args) (env : Env) :
    (acquirePhase args env).1 =
      (if args.reuse && args.app != "" then [Event.connectByPath args.app] else []) ++
      (if ((reusePhase args env).2).isNone && args.attach_only then [Event.desktopAttach] else []) ++
      (if (preWindow args env).isNone && !args.attach_only then
        [Event.startApp (buildCmd args)] else []) := by
  unfold acquirePhase preWindow
  cases hr : (reusePhase args env).2 with
  | some w => simp [reusePhase_trace, hr]
  | none =>
    cases ha : args.attach_only with
    | true => simp [reusePhase_trace, hr, ha, attachPhase]
    | false =>
      cases hs : env.start_result (buildCmd args) with
      | error e => simp [reusePhase_trace, hr, ha, hs]
      | ok u => simp [reusePhase_trace, hr, ha, hs]

/-- A successful acquisition hands the poll loop exactly the window of the
    reuse/attach phases (`None` after a successful launch). -/
theorem acquire_ok_pre (args : Args) (env : Env) (w0 : Option Window)
    (h : (acquirePhase args env).2 = .ok w0) : w0 = preWindow args env := by
  unfold acquirePhase at h
  unfold preWindow
  cases hr : (reusePhase args env).2 with
  | some w =>
    rw [hr] at h
    simp only [Except.ok.injEq] at h
    simp [← h]
  | none =>
    rw [hr] at h
    cases ha : args.attach_only with
    | true =>
      rw [ha] at h
      simp only [if_true, Except.ok.injEq] at h
      simp [← h]
    | false =>
      rw [ha] at h
      simp only [Bool.false_eq_true, if_false] at h
      cases hs : env.start_result (buildCmd args) with
      | error e => rw [hs] at h; simp at h
      | ok u =>
        rw [hs] at h
        simp only [Except.ok.injEq] at h
        simp [← h]

theorem acquire_all_acq (args : Args) (env : Env) :
    (acquirePhase args env).1.all isAcqEvent = true := by
  rw [acquire_trace_eq]
  by_cases h1 : (args.reuse && args.app != "") = true <;>
    by_cases h2 : (((reusePhase args env).2).isNone && args.attach_only) = true <;>
      by_cases h3 : ((preWindow args env).isNone && !args.attach_only) = true <;>
        simp [h1, h2, h3, isAcqEvent]

theorem acqEvent_not (e : Event) (h : isAcqEvent e = true) :
    isStep e = false ∧ isEnum e = false ∧ isWrite e = false ∧
    isStderrMsg "screenshot failed" e = false := by
  cases e <;> simp [isAcqEvent, isStep, isEnum, isWrite, isStderrMsg] at h ⊢

/- Structural lemmas about replay and serialization. -/

theorem replayTrace_all_steps (w : Window) (kb : PyVal → Bool) (ds : List Control) :
    ∀ (acts : List PyVal) (i : Nat), (replayTrace w kb ds acts i).1.all isStep = true := by
  intro acts
  induction acts with
  | nil => intro i; rfl
  | cons a rest ih =>
    intro i
    unfold replayTrace
    cases replayStep w kb ds a with
    | error e => simp [isStep]
    | ok effs =>
      have hih := ih (i + 1)
      cases hr : replayTrace w kb ds rest (i + 1) with
      | mk tr r =>
        rw [hr] at hih
        cases r with
        | error e => simpa [isStep] using hih
        | ok es => simpa [isStep] using hih

theorem serializeLoop_length : ∀ (l : List Control) (acc : List ControlRecord) (r : Rect)
    (out : List ControlRecord × Rect), serializeLoop l acc r = .ok out →
    out.1.length = acc.length + l.length := by
  intro l
  induction l with
  | nil =>
    intro acc r out h
    simp only [serializeLoop, Except.ok.injEq] at h
    simp [← h]
  | cons c rest ih =>
    intro acc r out h
    simp only [serializeLoop] at h
    cases hci : c.element_info with
    | error e => rw [hci] at h; simp at h
    | ok info =>
      rw [hci] at h
      have := ih _ _ _ h
      simp only [List.length_append, List.length_cons, List.length_nil] at this ⊢
      omega

theorem pySlice_length {α : Type} (xs : List α) (m : Int) :
    ((pySlice xs m).length : Int) =
      if 0 ≤ m then min (xs.length : Int) m else max ((xs.length : Int) + m) 0 := by
  unfold pySlice
  by_cases h : 0 ≤ m
  · simp only [h, if_true, List.length_take]
    push_cast
    omega
  · simp only [h, if_false, List.length_take]
    push_cast
    omega

theorem delayEffects_sleep (a : PyVal) : (delayEffects a).all isSleep = true := by
  unfold delayEffects
  cases PyVal.get a "delay_ms" (PyVal.int 0) with
  | int n => by_cases h : 0 < n <;> simp [h, isSleep]
  | bool b => cases b <;> simp [isSleep]
  | none => rfl
  | str s => rfl
  | list xs => rfl
  | dict kvs => rfl

/- Error-propagation lemmas for the replay loop. -/

theorem matchLoop_ok (tid tname ttype : PyVal) :
    ∀ (l : List Control) (acc : List Control),
      (∀ c ∈ l, exceptOk c.element_info = true) →
      exceptOk (matchLoop tid tname ttype l acc) = true := by
  intro l
  induction l with
  | nil => intro acc _; rfl
  | cons c rest ih =>
    intro acc h
    have hc := h c (by simp)
    have hrest : ∀ d ∈ rest, exceptOk d.element_info = true := fun d hd => h d (by simp [hd])
    cases hci : c.element_info with
    | error e => rw [hci] at hc; simp [exceptOk] at hc
    | ok info =>
      unfold matchLoop
      rw [hci]
      by_cases hm : controlMatches tid tname ttype info = true
      · simp only [hm, if_true]
        exact ih _ hrest
      · rw [Bool.not_eq_true] at hm
        simp only [hm, Bool.false_eq_true, if_false]
        exact ih _ hrest

theorem find_control_ok (ds : List Control) (a : PyVal)
    (h : ∀ c ∈ ds, exceptOk c.element_info = true) :
    exceptOk (find_control ds a) = true := by
  have hml := matchLoop_ok (targetId a) (targetName a) (targetType a) ds [] h
  unfold find_control
  cases hm : matchLoop (targetId a) (targetName a) (targetType a) ds [] with
  | error e => rw [hm] at hml; simp [exceptOk] at hml
  | ok ms => cases ms with
    | nil => rfl
    | cons m ms => rfl

theorem clickControlAction_ok (ds : List Control) (a : PyVal)
    (h : ∀ c ∈ ds, exceptOk c.element_info = true) :
    exceptOk (clickControlAction ds a) = true := by
  have hf := find_control_ok ds a h
  unfold clickControlAction
  cases hm : find_control ds a with
  | error e => rw [hm] at hf; simp [exceptOk] at hf
  | ok oc =>
    cases oc with
    | none => rfl
    | some c =>
      by_cases hc : c.click_ok = true
      · simp [hc, exceptOk]
      · rw [Bool.not_eq_true] at hc
        by_cases hfc : c.focus_click_ok = true
        · simp [hc, hfc, exceptOk]
        · rw [Bool.not_eq_true] at hfc
          simp [hc, hfc, exceptOk]

theorem replayStep_ok (w : Window) (kb : PyVal → Bool) (ds : List Control) (a : PyVal)
    (h : ∀ c ∈ ds, exceptOk c.element_info = true) :
    exceptOk (replayStep w kb ds a) = true := by
  have hca := clickControlAction_ok ds a h
  unfold replayStep
  split
  · split
    · rfl
    · split
      · split
        · next e heq => rw [heq] at hca; simp [exceptOk] at hca
        · rfl
      · split
        · rfl
        · split <;> rfl
  · rfl

theorem matchLoop_no_match (tid tname ttype : PyVal) :
    ∀ (l : List Control) (acc : List Control),
      (∀ c ∈ l, ∃ i, c.element_info = .ok i ∧ controlMatches tid tname ttype i = false) →
      matchLoop tid tname ttype l acc = .ok acc := by
  intro l
  induction l with
  | nil => intro acc _; rfl
  | cons c rest ih =>
    intro acc h
    obtain ⟨i, hi, hm⟩ := h c (by simp)
    have hrest : ∀ d ∈ rest, ∃ i, d.element_info = .ok i ∧
        controlMatches tid tname ttype i = false := fun d hd => h d (by simp [hd])
    unfold matchLoop
    rw [hi]
    simp only [hm, Bool.false_eq_true, if_false]
    exact ih _ hrest

theorem controlMatches_id_false (tid tname ttype : PyVal) (info : ElementInfo)
    (ht : truthy tid = true) (hne : pyEqStr tid info.automation_id = false) :
    controlMatches tid tname ttype info = false := by
  simp [controlMatches, ht, hne]

/- Trace-shape lemmas for the phases after acquisition. -/

theorem step_noAcq (e : Event) (h : isStep e = true) : noAcq e = true := by
  cases e <;> simp_all [isStep, noAcq, isConnect, isAttach, isStart]

theorem noAcq_spec (e : Event) (h : noAcq e = true) :
    isConnect e = false ∧ isAttach e = false ∧ isStart e = false := by
  cases e <;> simp_all [noAcq, isConnect, isAttach, isStart]

theorem any_false_of_all_not (f : Event → Bool) (l : List Event)
    (h : l.all (fun e => !(f e)) = true) : l.any f = false := by
  induction l with
  | nil => rfl
  | cons a t ih =>
    simp only [List.all_cons, Bool.and_eq_true, Bool.not_eq_true'] at h
    simp only [List.any_cons, h.1, Bool.false_or]
    exact ih (by simpa using h.2)

theorem any_append_all_not (f : Event → Bool) (l1 l2 : List Event)
    (h2 : l2.all (fun e => !(f e)) = true) : (l1 ++ l2).any f = l1.any f := by
  rw [List.any_append, any_false_of_all_not f l2 h2, Bool.or_false]

theorem capturePhase_noAcq (args : Args) (w : Window) (ds : List Control) :
    (capturePhase args w ds).1.all noAcq = true := by
  unfold capturePhase
  cases hc : w.capture_ok with
  | false => simp [noAcq, isConnect, isAttach, isStart]
  | true =>
    cases hs : serializeControls ds args.max_controls w.rect with
    | error e => simp [noAcq, isConnect, isAttach, isStart]
    | ok pr =>
      by_cases hcl : args.close = true <;>
        simp [hcl, noAcq, isConnect, isAttach, isStart]

theorem windowPhase_noAcq (args : Args) (env : Env) (w : Window) :
    (windowPhase args env w).1.all noAcq = true := by
  unfold windowPhase
  cases hit : pyIter (loadActions args.actions_json env.file) with
  | error e => simp [noAcq, isConnect, isAttach, isStart]
  | ok acts =>
    have hsteps : (replayTrace w env.send_ok (descOf w) acts 0).1.all noAcq = true :=
      all_of_all_imp _ _ _ (replayTrace_all_steps w env.send_ok (descOf w) acts 0) step_noAcq
    cases hrep : (replayTrace w env.send_ok (descOf w) acts 0).2 with
    | error e =>
      simp only [hit, hrep]
      rw [List.all_cons, hsteps]
      simp [noAcq, isConnect, isAttach, isStart]
    | ok effs =>
      have hcap := capturePhase_noAcq args w (descOf w)
      simp only [hit, hrep]
      rw [List.all_append, List.all_cons, hsteps, hcap]
      simp [noAcq, isConnect, isAttach, isStart]

theorem windowPhase_noEventBefore (args : Args) (env : Env) (w : Window) :
    noEventBefore (windowPhase args env w).1 isEnum isStep = true := by
  unfold windowPhase
  cases hit : pyIter (loadActions args.actions_json env.file) with
  | error e => simp [hit, noEventBefore, List.takeWhile_cons, isEnum]
  | ok acts =>
    cases hrep : (replayTrace w env.send_ok (descOf w) acts 0).2 with
    | error e => simp [hit, hrep, noEventBefore, List.takeWhile_cons, isEnum]
    | ok effs => simp [hit, hrep, noEventBefore, List.takeWhile_cons, isEnum]

/-- Under a present automation binding, every trace is the acquisition trace
    followed by a suffix free of acquisition events. -/
theorem runTrace_decomp (args : Args) (env : Env) (h : env.pywinauto_ok = true) :
    ∃ suffix : List Event, runTrace args env = (acquirePhase args env).1 ++ suffix ∧
      suffix.all noAcq = true := by
  unfold runTrace runProbe
  simp only [h, if_true]
  cases hacq : (acquirePhase args env).2 with
  | error e =>
    refine ⟨[], ?_, rfl⟩
    simp [hacq]
  | ok w0 =>
    cases hpl : pollLoop w0 env.polls with
    | none =>
      refine ⟨[Event.stderr "window not found"], ?_, rfl⟩
      simp [hacq, hpl]
    | some w =>
      cases hex : w.ex with
      | false =>
        refine ⟨[Event.stderr "window not found"], ?_, rfl⟩
        simp [hacq, hpl, hex]
      | true =>
        refine ⟨(windowPhase args env w).1, ?_, windowPhase_noAcq args env w⟩
        simp [hacq, hpl, hex]

theorem acquire_any_connect (args : Args) (env : Env) :
    ((acquirePhase args env).1).any isConnect = (args.reuse && args.app != "") := by
  rw [acquire_trace_eq]
  cases h1 : (args.reuse && args.app != "") <;>
    by_cases h2 : (((reusePhase args env).2).isNone && args.attach_only) = true <;>
      by_cases h3 : ((preWindow args env).isNone && !args.attach_only) = true <;>
        simp [h1, h2, h3, isConnect]

theorem acquire_any_attach (args : Args) (env : Env) :
    ((acquirePhase args env).1).any isAttach =
      (((reusePhase args env).2).isNone && args.attach_only) := by
  rw [acquire_trace_eq]
  by_cases h1 : (args.reuse && args.app != "") = true <;>
    cases h2 : (((reusePhase args env).2).isNone && args.attach_only) <;>
      by_cases h3 : ((preWindow args env).isNone && !args.attach_only) = true <;>
        simp [h1, h2, h3, isAttach]

theorem acquire_any_start (args : Args) (env : Env) :
    ((acquirePhase args env).1).any isStart =
      ((preWindow args env).isNone && !args.attach_only) := by
  rw [acquire_trace_eq]
  by_cases h1 : (args.reuse && args.app != "") = true <;>
    by_cases h2 : (((reusePhase args env).2).isNone && args.attach_only) = true <;>
      cases h3 : ((preWindow args env).isNone && !args.attach_only) <;>
        simp [h1, h2, h3, isStart]

theorem acquire_no_write (args : Args) (env : Env) :
    (acquirePhase args env).1.all (fun e => !(isWrite e)) = true :=
  all_of_all_imp _ _ _ (acquire_all_acq args env)
    (fun e he => by rw [(acqEvent_not e he).2.2.1]; rfl)

theorem acquire_no_step (args : Args) (env : Env) :
    (acquirePhase args env).1.all (fun e => !(isStep e)) = true :=
  all_of_all_imp _ _ _ (acquire_all_acq args env)
    (fun e he => by rw [(acqEvent_not e he).1]; rfl)

theorem step_not (e : Event) (h : isStep e = true) :
    isWrite e = false ∧ isEnum e = false ∧ isStderrMsg "screenshot failed" e = false := by
  cases e <;> simp_all [isStep, isWrite, isEnum, isStderrMsg]

theorem acquire_order (args : Args) (env : Env) :
    noEventAfter (acquirePhase args env).1 isAttach isConnect = true ∧
    noEventAfter (acquirePhase args env).1 isStart isConnect = true ∧
    noEventAfter (acquirePhase args env).1 isStart isAttach = true := by
  rw [acquire_trace_eq]
  by_cases h1 : (args.reuse && args.app != "") = true <;>
    by_cases h2 : (((reusePhase args env).2).isNone && args.attach_only) = true <;>
      by_cases h3 : ((preWindow args env).isNone && !args.attach_only) = true <;>
        simp [h1, h2, h3, noEventAfter, isConnect, isAttach, isStart,
          List.dropWhile_cons]

/- Claim theorems. -/

/-- Claim C2 (code bug): the spec says `window_rect` holds the matched
    window's own rectangle regardless of how many controls were serialized.
    The serialization loop rebinds the variable `rect` (line 207), so with
    one serialized descendant the emitted `window_rect` is the control's
    rectangle (5,5,10,10), not the window's (0,0,100,100). -/
theorem c2_window_rect_shadowed :
    outcomeWindowRect (runOutcome baseArgs oneControlEnv) = some ⟨5, 5, 10, 10⟩ ∧
    oneControlWindow.rect = ⟨0, 0, 100, 100⟩ ∧
    outcomeWindowRect (runOutcome baseArgs oneControlEnv) ≠ some oneControlWindow.rect :=
  ⟨rfl, rfl, by decide⟩

/-- Claim C1, counterexample: with `--max-controls = -1` the run reaches
    serialization and produces a payload, yet the serialized length does not
    equal min(control_count, max_controls): Python's negative-slice semantics
    yield length 0 while min(1, -1) = -1. -/
theorem c1_counterexample :
    (outcomePayload (runOutcome negMaxArgs oneControlEnv)).isSome = true ∧
    lenEqMinObserved negMaxArgs (runOutcome negMaxArgs oneControlEnv) = false :=
  ⟨rfl, rfl⟩

/-- Claim C3, counterexample: in a run replaying one `click` action the
    enumeration event is followed by an action step, so the serialized
    descendant list is not enumerated after replay completes. -/
theorem c3_counterexample :
    noEventAfter (runTrace actionsJsonArgs oneClickEnv) isEnum isStep = false ∧
    (runTrace actionsJsonArgs oneClickEnv).any isStep = true :=
  ⟨rfl, rfl⟩

/-- Claim C4, counterexample: a `click_control` step resolves its target via
    `find_control` outside any try/except; a raising `element_info` read
    escapes the replay loop and aborts the run with an uncaught exception. -/
theorem c4_counterexample :
    runOutcome actionsJsonArgs badControlEnv = Outcome.uncaught PErr.comError := rfl

/-- Claim C4 (amended): every replay step swallows its own failures provided
    each descendant's `element_info` read succeeds — the loop then never
    raises, whatever the action records contain. -/
theorem c4_steps_swallow_failures (w : Window) (kb : PyVal → Bool) (ds : List Control)
    (h : ∀ c ∈ ds, exceptOk c.element_info = true) :
    ∀ (acts : List PyVal) (i : Nat), exceptOk (replayTrace w kb ds acts i).2 = true := by
  intro acts
  induction acts with
  | nil => intro i; rfl
  | cons a rest ih =>
    intro i
    have hstep := replayStep_ok w kb ds a h
    unfold replayTrace
    cases hs : replayStep w kb ds a with
    | error e => rw [hs] at hstep; simp [exceptOk] at hstep
    | ok effs =>
      have hih := ih (i + 1)
      cases hr : replayTrace w kb ds rest (i + 1) with
      | mk tr r =>
        rw [hr] at hih
        cases r with
        | error e => simp [exceptOk] at hih
        | ok es => rfl

/-- Witness for the amended C4 theorem at a concrete healthy control. -/
theorem c4_steps_swallow_failures_witness :
    exceptOk (replayTrace baseWindow (fun _ => true) [demoControl] [clickControlVal] 0).2 = true :=
  c4_steps_swallow_failures baseWindow (fun _ => true) [demoControl]
    (by intro c hc; simp only [List.mem_singleton] at hc; subst hc; rfl)
    [clickControlVal] 0

/-- Claim C5, counterexample: the only poll resolution yields a window that
    exists but is never visible; the run neither exits 3 nor withholds the
    JSON — it completes with exit 0 and a written payload, because the
    line-90 check tests existence only. -/
theorem c5_counterexample :
    invisibleWindow.visible = false ∧
    runOutcome baseArgs invisibleEnv = Outcome.exited 0 (some basePayload) :=
  ⟨rfl, rfl⟩

/-- Claim C7, counterexample: an actions file parsing to a dict whose
    `actions` value is the non-iterable 0 crashes the replay loop header
    with an uncaught TypeError instead of yielding an empty action list. -/
theorem c7_counterexample :
    runOutcome actionsJsonArgs nonIterActionsEnv = Outcome.uncaught PErr.typeError := rfl

/-- Claim C7 (amended): a missing file, an unopenable or unparseable file,
    or a parsed non-dict value yields the empty action list, and iterating
    it succeeds with zero steps; only a dict with a non-iterable `actions`
    value escapes this. -/
theorem c7_malformed_actions_empty (s : String) (fc : FileContent)
    (h : fc = FileContent.missing ∨ fc = FileContent.unparseable ∨
         (∃ v : PyVal, fc = FileContent.parsed v ∧ isDict v = false)) :
    loadActions s fc = PyVal.list [] ∧
    pyIter (loadActions s fc) = Except.ok [] := by
  have hload : loadActions s fc = PyVal.list [] := by
    unfold loadActions
    by_cases hs : (s == "") = true
    · simp [hs]
    · rw [Bool.not_eq_true] at hs
      simp only [hs, Bool.false_eq_true, if_false]
      rcases h with h | h | ⟨v, hv, hd⟩
      · rw [h]
      · rw [h]
      · rw [hv]
        simp [hd]
  exact ⟨hload, by rw [hload]; rfl⟩

/-- Witness for the amended C7 theorem: a parsed non-dict actions file. -/
theorem c7_malformed_actions_empty_witness :
    loadActions "acts.json" (FileContent.parsed (PyVal.list [PyVal.int 1])) = PyVal.list [] ∧
    pyIter (loadActions "acts.json" (FileContent.parsed (PyVal.list [PyVal.int 1]))) =
      Except.ok [] :=
  c7_malformed_actions_empty "acts.json" (FileContent.parsed (PyVal.list [PyVal.int 1]))
    (Or.inr (Or.inr ⟨PyVal.list [PyVal.int 1], rfl, rfl⟩))

/-- Claim C9: replaying a `click_control` action whose automation-id filter
    matches no descendant performs no click — the step returns only its
    optional sleep (all its effects are sleeps) and raises no error. -/
theorem c9_no_match_no_click (w : Window) (kb : PyVal → Bool) (ds : List Control) (a : PyVal)
    (htype : actionType a = PyVal.str "click_control")
    (htid : truthy (targetId a) = true)
    (hmiss : ∀ c ∈ ds, ∃ i : ElementInfo, c.element_info = Except.ok i ∧
        pyEqStr (targetId a) i.automation_id = false) :
    replayStep w kb ds a = Except.ok (delayEffects a) ∧
    (delayEffects a).all isSleep = true := by
  refine ⟨?_, delayEffects_sleep a⟩
  have hdict : isDict a = true := by
    cases a <;> simp_all [actionType, PyVal.get, isDict]
  have hfc : find_control ds a = Except.ok Option.none := by
    unfold find_control
    rw [matchLoop_no_match (targetId a) (targetName a) (targetType a) ds []
      (fun c hc => by
        obtain ⟨i, hi, hne⟩ := hmiss c hc
        exact ⟨i, hi, controlMatches_id_false _ _ _ _ htid hne⟩)]
  have hcc : clickControlAction ds a = Except.ok [] := by
    unfold clickControlAction
    rw [hfc]
  have h1 : pyEqStr (PyVal.str "click_control") "click" = false := rfl
  have h2 : pyEqStr (PyVal.str "click_control") "click_control" = true := rfl
  unfold replayStep
  rw [htype]
  simp only [hdict, if_true, h1, h2, Bool.false_eq_true, if_false]
  rw [hcc]
  simp

/-- Claim C1 (amended): for every run that completes, `control_count` equals
    the number of descendants enumerated, and the serialized `controls`
    length equals min(control_count, max_controls) whenever max_controls is
    nonnegative; a negative max_controls follows Python's negative-slice
    semantics, max(control_count + max_controls, 0). -/
theorem c1_control_count_and_length (args : Args) (env : Env) (p : Payload)
    (h : runOutcome args env = Outcome.exited 0 (some p)) :
    p.control_count = (enumerated args env).length ∧
    ((p.controls.length : Int) =
      if 0 ≤ args.max_controls then min (p.control_count : Int) args.max_controls
      else max ((p.control_count : Int) + args.max_controls) 0) := by
  unfold runOutcome runProbe at h
  split at h
  · split at h
    · simp at h
    · next w0 heqacq =>
      split at h
      · next w hpl =>
        split at h
        · unfold windowPhase at h
          split at h
          · simp at h
          · next acts hit =>
            split at h
            · simp at h
            · next effs hrep =>
              unfold capturePhase at h
              split at h
              · split at h
                · simp at h
                · next pr hser =>
                  simp only [Outcome.exited.injEq, Option.some.injEq, true_and] at h
                  have hw0 := acquire_ok_pre args env w0 heqacq
                  have hser2 : serializeLoop (pySlice (descOf w) args.max_controls) [] w.rect
                      = .ok pr := hser
                  have hlen := serializeLoop_length _ _ _ _ hser2
                  simp only [List.length_nil, Nat.zero_add] at hlen
                  subst h
                  constructor
                  · simp [mkPayload, enumerated, ← hw0, hpl]
                  · simp only [mkPayload]
                    rw [hlen, pySlice_length]
              · simp at h
        · simp at h
      · simp at h
  · simp at h

/-- Witness for the amended C1 theorem: the benign base run. -/
theorem c1_control_count_and_length_witness :
    basePayload.control_count = (enumerated baseArgs baseEnv).length ∧
    ((basePayload.controls.length : Int) =
      if 0 ≤ baseArgs.max_controls then
        min (basePayload.control_count : Int) baseArgs.max_controls
      else max ((basePayload.control_count : Int) + baseArgs.max_controls) 0) :=
  c1_control_count_and_length baseArgs baseEnv basePayload rfl

/-- Claim C3 (amended): the descendant list that is serialized is enumerated
    before action replay begins — in every trace, no action step precedes
    the enumeration event. -/
theorem c3_enumeration_precedes_replay (args : Args) (env : Env) :
    noEventBefore (runTrace args env) isEnum isStep = true := by
  unfold runTrace runProbe
  cases hpw : env.pywinauto_ok with
  | false => simp [hpw, noEventBefore, List.takeWhile_cons, isEnum, isStep]
  | true =>
    simp only [hpw, if_true]
    have hacqall := acquire_no_step args env
    cases hacq : (acquirePhase args env).2 with
    | error e =>
      simp only [hacq]
      exact noEventBefore_of_all _ _ _ hacqall
    | ok w0 =>
      cases hpl : pollLoop w0 env.polls with
      | none =>
        simp only [hacq, hpl]
        exact noEventBefore_append _ _ _ _ hacqall rfl
      | some w =>
        cases hex : w.ex with
        | false =>
          simp only [hacq, hpl, hex, Bool.false_eq_true, if_false]
          exact noEventBefore_append _ _ _ _ hacqall rfl
        | true =>
          simp only [hacq, hpl, hex, if_true]
          exact noEventBefore_append _ _ _ _ hacqall (windowPhase_noEventBefore args env w)

/-- Claim C5 (amended): if acquisition resolves no window, the launch (when
    taken) succeeds, and every poll iteration raises or yields a window
    failing the exists() check, the run exits 3 and writes no JSON.  (As the
    C5 counterexample shows, an existing-but-invisible window escapes this:
    line 90 checks existence, not visibility.) -/
theorem c5_no_existing_window_exit3 (args : Args) (env : Env)
    (h0 : env.pywinauto_ok = true)
    (hacq : exceptOk (acquirePhase args env).2 = true)
    (hpre : windowMissing (preWindow args env) = true)
    (hpolls : ∀ p ∈ env.polls, pollNonexistent p = true) :
    runOutcome args env = Outcome.exited 3 Option.none ∧
    (runTrace args env).any isWrite = false := by
  have hmiss := pollLoop_missing env.polls hpolls (preWindow args env) hpre
  unfold runOutcome runTrace runProbe
  simp only [h0, if_true]
  cases hacq2 : (acquirePhase args env).2 with
  | error e => rw [hacq2] at hacq; simp [exceptOk] at hacq
  | ok w0 =>
    have hw0 := acquire_ok_pre args env w0 hacq2
    subst hw0
    cases hpl : pollLoop (preWindow args env) env.polls with
    | none =>
      simp only [hacq2, hpl]
      refine ⟨by trivial, ?_⟩
      rw [any_append_all_not _ _ _ (by rfl)]
      exact any_false_of_all_not _ _ (acquire_no_write args env)
    | some w =>
      rw [hpl] at hmiss
      simp only [windowMissing, Bool.not_eq_true'] at hmiss
      simp only [hacq2, hpl, hmiss, Bool.false_eq_true, if_false]
      refine ⟨by trivial, ?_⟩
      rw [any_append_all_not _ _ _ (by rfl)]
      exact any_false_of_all_not _ _ (acquire_no_write args env)

/-- Witness for the amended C5 theorem: the only poll yields a
    non-existing window. -/
theorem c5_no_existing_window_exit3_witness :
    runOutcome baseArgs ghostEnv = Outcome.exited 3 Option.none ∧
    (runTrace baseArgs ghostEnv).any isWrite = false :=
  c5_no_existing_window_exit3 baseArgs ghostEnv rfl rfl rfl (by decide)

/-- Claim C6: when the run reaches the capture step and the screenshot
    capture or save fails, the process prints the diagnostic to stderr,
    exits with status 4, and writes no JSON. -/
theorem c6_screenshot_failure_exit4 (args : Args) (env : Env) (w : Window)
    (h0 : env.pywinauto_ok = true)
    (hacq : exceptOk (acquirePhase args env).2 = true)
    (hw : pollLoop (preWindow args env) env.polls = some w)
    (hex : w.ex = true)
    (hrep : replayPhaseOk args env w = true)
    (hcap : w.capture_ok = false) :
    runOutcome args env = Outcome.exited 4 Option.none ∧
    (runTrace args env).any (isStderrMsg "screenshot failed") = true ∧
    (runTrace args env).any isWrite = false := by
  unfold runOutcome runTrace runProbe
  simp only [h0, if_true]
  cases hacq2 : (acquirePhase args env).2 with
  | error e => rw [hacq2] at hacq; simp [exceptOk] at hacq
  | ok w0 =>
    have hw0 := acquire_ok_pre args env w0 hacq2
    subst hw0
    unfold replayPhaseOk at hrep
    unfold windowPhase
    cases hit : pyIter (loadActions args.actions_json env.file) with
    | error e => rw [hit] at hrep; simp at hrep
    | ok acts =>
      rw [hit] at hrep
      simp at hrep
      cases hrepl : (replayTrace w env.send_ok (descOf w) acts 0).2 with
      | error e => rw [hrepl] at hrep; simp [exceptOk] at hrep
      | ok effs =>
        unfold capturePhase
        simp only [hacq2, hw, hex, if_true, hit, hrepl, hcap, Bool.false_eq_true, if_false]
        have hsw : (replayTrace w env.send_ok (descOf w) acts 0).1.all
            (fun e => !(isWrite e)) = true :=
          all_of_all_imp _ _ _ (replayTrace_all_steps w env.send_ok (descOf w) acts 0)
            (fun e he => by rw [(step_not e he).1]; rfl)
        refine ⟨by trivial, ?_, ?_⟩
        · rw [List.any_append, List.any_append, List.any_cons]
          simp [isStderrMsg]
        · have hall : ((Event.enumerateDescendants ::
              (replayTrace w env.send_ok (descOf w) acts 0).1)
              ++ [Event.stderr "screenshot failed"]).all (fun e => !(isWrite e)) = true := by
            rw [List.all_append, List.all_cons, hsw]
            rfl
          rw [any_append_all_not _ _ _ hall]
          exact any_false_of_all_not _ _ (acquire_no_write args env)

/-- Witness for the C6 theorem: a window whose capture fails. -/
theorem c6_screenshot_failure_exit4_witness :
    runOutcome baseArgs brokenCamEnv = Outcome.exited 4 Option.none ∧
    (runTrace baseArgs brokenCamEnv).any (isStderrMsg "screenshot failed") = true ∧
    (runTrace baseArgs brokenCamEnv).any isWrite = false :=
  c6_screenshot_failure_exit4 baseArgs brokenCamEnv brokenCamWindow rfl rfl rfl rfl rfl rfl

/-- Claim C8: window acquisition attempts, in order, the reuse connect (iff
    --reuse with a nonempty --app), the desktop attach (iff the reuse step
    yielded nothing and --attach-only), and the launch (iff no window was
    found and --attach-only is not set); with --attach-only no process is
    ever started. -/
theorem c8_acquisition_order (args : Args) (env : Env) (h : env.pywinauto_ok = true) :
    (args.attach_only = true → (runTrace args env).any isStart = false) ∧
    (runTrace args env).any isConnect = (args.reuse && args.app != "") ∧
    (runTrace args env).any isAttach = (((reusePhase args env).2).isNone && args.attach_only) ∧
    (runTrace args env).any isStart = ((preWindow args env).isNone && !args.attach_only) ∧
    noEventAfter (runTrace args env) isAttach isConnect = true ∧
    noEventAfter (runTrace args env) isStart isConnect = true ∧
    noEventAfter (runTrace args env) isStart isAttach = true := by
  obtain ⟨suffix, hdecomp, hsuf⟩ := runTrace_decomp args env h
  have hc : suffix.all (fun e => !(isConnect e)) = true :=
    all_of_all_imp _ _ _ hsuf (fun e he => by rw [(noAcq_spec e he).1]; rfl)
  have ha : suffix.all (fun e => !(isAttach e)) = true :=
    all_of_all_imp _ _ _ hsuf (fun e he => by rw [(noAcq_spec e he).2.1]; rfl)
  have hs : suffix.all (fun e => !(isStart e)) = true :=
    all_of_all_imp _ _ _ hsuf (fun e he => by rw [(noAcq_spec e he).2.2]; rfl)
  rw [hdecomp, any_append_all_not _ _ _ hc, any_append_all_not _ _ _ ha,
    any_append_all_not _ _ _ hs]
  refine ⟨?_, acquire_any_connect args env, acquire_any_attach args env,
    acquire_any_start args env, ?_, ?_, ?_⟩
  · intro hat
    rw [acquire_any_start args env, hat]
    simp
  · exact noEventAfter_append _ _ _ _ (acquire_order args env).1 hc
  · exact noEventAfter_append _ _ _ _ (acquire_order args env).2.1 hc
  · exact noEventAfter_append _ _ _ _ (acquire_order args env).2.2 ha

/-- Witness for the C8 theorem: the benign base run. -/
theorem c8_acquisition_order_witness :
    (baseArgs.attach_only = true → (runTrace baseArgs baseEnv).any isStart = false) ∧
    (runTrace baseArgs baseEnv).any isConnect = (baseArgs.reuse && baseArgs.app != "") ∧
    (runTrace baseArgs baseEnv).any isAttach =
      (((reusePhase baseArgs baseEnv).2).isNone && baseArgs.attach_only) ∧
    (runTrace baseArgs baseEnv).any isStart =
      ((preWindow baseArgs baseEnv).isNone && !baseArgs.attach_only) ∧
    noEventAfter (runTrace baseArgs baseEnv) isAttach isConnect = true ∧
    noEventAfter (runTrace baseArgs baseEnv) isStart isConnect = true ∧
    noEventAfter (runTrace baseArgs baseEnv) isStart isAttach = true :=
  c8_acquisition_order baseArgs baseEnv rfl

/-- Claim C10: with an empty --app (its default), no --attach-only, and no
    reusable window found, the run reaches the unprotected launch step with
    an empty command line; its failure is an uncaught exception, not one of
    the defined exit codes. -/
theorem c10_empty_app_uncaught (args : Args) (env : Env) (e : PErr)
    (happ : args.app = "")
    (hatt : args.attach_only = false)
    (hpy : env.pywinauto_ok = true)
    (hreuse : (reusePhase args env).2 = Option.none)
    (hstart : env.start_result "" = Except.error e) :
    runOutcome args env = Outcome.uncaught e ∧
    (runTrace args env).any (isStartCmd "") = true := by
  have hcmd : buildCmd args = "" := by
    unfold buildCmd
    rw [happ]
    rfl
  have hacq : (acquirePhase args env).2 = .error e := by
    unfold acquirePhase
    rw [hreuse, hatt]
    simp only [Bool.false_eq_true, if_false]
    rw [hcmd, hstart]
  have hacqtr : (acquirePhase args env).1 =
      (reusePhase args env).1 ++ [Event.startApp ""] := by
    unfold acquirePhase
    rw [hreuse, hatt]
    simp only [Bool.false_eq_true, if_false]
    rw [hcmd, hstart]
  constructor
  · unfold runOutcome runProbe
    simp only [hpy, if_true, hacq]
  · unfold runTrace runProbe
    simp only [hpy, if_true, hacq, hacqtr]
    rw [List.any_append, List.any_cons]
    simp [isStartCmd]

/-- Witness for the C10 theorem: empty --app with a failing launch. -/
theorem c10_empty_app_uncaught_witness :
    runOutcome emptyAppArgs failingStartEnv = Outcome.uncaught PErr.startError ∧
    (runTrace emptyAppArgs failingStartEnv).any (isStartCmd "") = true :=
  c10_empty_app_uncaught emptyAppArgs failingStartEnv PErr.startError rfl rfl rfl rfl rfl

/-- Witness for the C9 theorem: one healthy control with automation id "b1",
    targeted with automation id "nomatch". -/
theorem c9_no_match_no_click_witness :
    replayStep baseWindow (fun _ => true) [demoControl] noMatchClickControlVal =
      Except.ok (delayEffects noMatchClickControlVal) ∧
    (delayEffects noMatchClickControlVal).all isSleep = true :=
  c9_no_match_no_click baseWindow (fun _ => true) [demoControl] noMatchClickControlVal
    rfl rfl
    (by intro c hc
        simp only [List.mem_singleton] at hc
        subst hc
        exact ⟨demoInfo, rfl, rfl⟩)

end DesktopProbe
